import Mathlib

/-!
Verification of the emotion-sample time-series store of the VisionAi
repository (React frontend). The store is the App components
emotionHistory array together with its inline consumers:
handleEmotionHistory (append), handleReset (clear), handleExportCSV
(row export), handleExportJSON (structured export), the EmotionChart
chartData and average computation, the CameraPanel emotion-bar sort
(topN) and detection-result handling, and the api.js detectEmotion
error fallback.

JavaScript numbers are modelled as exact rationals, JS objects used as
label-to-score maps are modelled as ordered association lists (JS
objects preserve key insertion order, which Object.entries exposes),
and functions that early-return without producing output are modelled
as Option-returning functions (none = no output produced).
-/

namespace VisionAi

/-- A JS score object: ordered association list from emotion label to score. -/
abbrev Scores := List (String × ℚ)

/-- One emotionHistory entry: shape of the central App state data
(timestamp ms, dominant emotion, its confidence, all per-label scores). -/
structure Obs where
  timestamp : Int
  emotion : String
  confidence : ℚ
  emotions : Scores
deriving DecidableEq

/-- Stand-in for the JS builtin new Date(ts).toLocaleString(); only the
fact that it is a function of the timestamp matters to any claim. -/
def localeString (t : Int) : String := toString t

/-- Stand-in for the JS builtin new Date(ts).toISOString(); only the
fact that it is a function of the timestamp matters to any claim. -/
def isoString (t : Int) : String := toString t

/-- JS Number.prototype.toFixed(2) on an exact rational: the integer n
for which n / 100 is closest to the value, ties resolved to the larger
n (the ECMA-262 rule), printed with exactly two decimal digits. -/
def toFixed2 (q : ℚ) : String :=
  let r : ℚ := q * 100 + 1 / 2
  let n : Int := Int.fdiv r.num r.den
  let m : Nat := n.natAbs
  (if n < 0 then "-" else "")
    ++ toString (m / 100) ++ "."
    ++ (if m % 100 < 10 then "0" else "") ++ toString (m % 100)

/-- The CSV header row of handleExportCSV. -/
def csvHeaders : List String :=
  ["Timestamp", "Time", "Dominant Emotion", "Confidence",
   "Happy", "Sad", "Angry", "Surprise", "Fear", "Disgust", "Neutral"]

/-- One per-label CSV cell: (entry.emotions.label * 100).toFixed(2) + percent
sign. The source applies no default for a missing label: in JS,
undefined * 100 is NaN and NaN.toFixed(2) is the string NaN. -/
def csvEmotionCell (s : Scores) (label : String) : String :=
  match s.lookup label with
  | some v => toFixed2 (v * 100) ++ "%"
  | none => "NaN%"

/-- One CSV data row of handleExportCSV (11 columns). -/
def csvRow (o : Obs) : List String :=
  [toString o.timestamp,
   localeString o.timestamp,
   o.emotion,
   toFixed2 (o.confidence * 100) ++ "%",
   csvEmotionCell o.emotions "happy",
   csvEmotionCell o.emotions "sad",
   csvEmotionCell o.emotions "angry",
   csvEmotionCell o.emotions "surprise",
   csvEmotionCell o.emotions "fear",
   csvEmotionCell o.emotions "disgust",
   csvEmotionCell o.emotions "neutral"]

/-- App.handleExportCSV: early-returns (producing nothing) when the
history is empty, otherwise produces the header row followed by one row
per observation in store order. -/
def handleExportCSV (history : List Obs) : Option (List (List String)) :=
  if history.length = 0 then none
  else some (csvHeaders :: history.map csvRow)

/-- The final CSV text: rows joined by commas, lines by newlines. -/
def csvContent (rows : List (List String)) : String :=
  String.intercalate "\x0a" (rows.map (String.intercalate ","))

/-- One element of the structured (JSON) export data list. -/
structure DataEntry where
  timestamp : Int
  time : String
  dominantEmotion : String
  confidence : ℚ
  allEmotions : Scores
deriving DecidableEq

/-- The structured (JSON) export payload of handleExportJSON. -/
structure Structured where
  exportDate : String
  totalRecords : Nat
  duration : Int
  data : List DataEntry
deriving DecidableEq

/-- The per-entry mapping inside jsonData.data of handleExportJSON. -/
def toDataEntry (o : Obs) : DataEntry :=
  { timestamp := o.timestamp
    time := isoString o.timestamp
    dominantEmotion := o.emotion
    confidence := o.confidence
    allEmotions := o.emotions }

/-- App.handleExportJSON: early-returns (producing nothing) when the
history is empty; otherwise builds the payload whose duration is
last.timestamp - first.timestamp when the history is non-empty, else 0
(the source ternary on emotionHistory.length greater than 0). -/
def handleExportJSON (history : List Obs) (now : Int) : Option Structured :=
  if history.length = 0 then none
  else some
    { exportDate := isoString now
      totalRecords := history.length
      duration :=
        match history.head?, history.getLast? with
        | some first, some last => last.timestamp - first.timestamp
        | _, _ => 0
      data := history.map toDataEntry }

/-- Reconstruction of an Observation from a structured-export data
entry (the inverse reading used by the round-trip property). -/
def reconstructObs (d : DataEntry) : Obs :=
  { timestamp := d.timestamp
    emotion := d.dominantEmotion
    confidence := d.confidence
    emotions := d.allEmotions }

/-- The central App state container (currentEmotion, emotionHistory,
isAnalyzing, inputMode, selectedVideo). -/
structure AppState where
  currentEmotion : String
  emotionHistory : List Obs
  isAnalyzing : Bool
  inputMode : String
  selectedVideo : Option String
deriving DecidableEq

/-- App.handleEmotionHistory: setEmotionHistory(prev concatenated with
the singleton of data), i.e. append at the end. -/
def handleEmotionHistory (prev : List Obs) (data : Obs) : List Obs :=
  prev ++ [data]

/-- App.handleReset: guarded by window.confirm; on confirmation the
history is emptied and currentEmotion is set to neutral, otherwise the
state is untouched. -/
def handleReset (confirmed : Bool) (st : AppState) : AppState :=
  if confirmed then
    { st with emotionHistory := [], currentEmotion := "neutral" }
  else st

/-- EmotionChart chartData per-label value: (entry.emotions.label or 0)
times 100. A missing label defaults to 0 through the JS or-operator. -/
def chartVal (o : Obs) (label : String) : ℚ :=
  ((o.emotions.lookup label).getD 0) * 100

/-- EmotionChart average statistic for one label: computed (and
rendered) only when emotionHistory.length is greater than 0; the block
is skipped entirely on an empty history, so no value is produced. -/
def avgValue (history : List Obs) (label : String) : Option ℚ :=
  if 0 < history.length then
    some ((history.map fun o => chartVal o label).sum / history.length)
  else none

/-- Second definition following the spec wording for averageScores: the
arithmetic mean of the per-label score (missing labels as 0) across all
observations, zero-filled on an empty store. Stated only to be compared
with the code-derived avgValue. -/
def averageScoresSpec (history : List Obs) (label : String) : ℚ :=
  if history.length = 0 then 0
  else (history.map fun o => (o.emotions.lookup label).getD 0).sum / history.length

/-- The comparator relation of the CameraPanel emotion-bar sort: the JS
comparator (a, b) maps to b[1] - a[1], i.e. descending by score. -/
def scoreGe (a b : String × ℚ) : Prop := b.2 ≤ a.2

instance : DecidableRel scoreGe :=
  fun a b => inferInstanceAs (Decidable (b.2 ≤ a.2))

instance : IsTotal (String × ℚ) scoreGe := ⟨fun a b => le_total b.2 a.2⟩

instance : IsTrans (String × ℚ) scoreGe :=
  ⟨fun _ _ _ h1 h2 => le_trans h2 h1⟩

/-- The CameraPanel sort of Object.entries(allEmotions) by descending
score. The ECMA-262 Array.prototype.sort is stable, and insertion sort
with the relation scoreGe is exactly the stable descending sort. -/
def sortDesc (s : Scores) : Scores := List.insertionSort scoreGe s

/-- topN: the first n entries of the descending sort (the source slices
the sorted entries, with n = 5 in the CameraPanel). -/
def topN (s : Scores) (n : Nat) : Scores := (sortDesc s).take n

/-- The labels of the topN entries. -/
def topNLabels (s : Scores) (n : Nat) : List String :=
  (topN s n).map Prod.fst

/-- The wire shape returned by api.js detectEmotion. -/
structure DetectResult where
  emotion : String
  confidence : ℚ
  all_emotions : Option Scores
  error : Option String
deriving DecidableEq

/-- The catch branch of api.js detectEmotion: on any failure it returns
the default payload with emotion neutral, confidence 0, no
all_emotions field, and the error message attached. -/
def detectEmotionOnError (msg : String) : DetectResult :=
  { emotion := "neutral", confidence := 0, all_emotions := none, error := some msg }

/-- The CameraPanel component state updated by captureAndDetect. -/
structure CameraState where
  emotion : String
  confidence : ℚ
  allEmotions : Scores
deriving DecidableEq

/-- CameraPanel.captureAndDetect result handling: the state is updated
only when result carries no error field (the source condition result
and not result.error); otherwise the result is discarded and the state
is left unchanged. -/
def applyDetection (st : CameraState) (result : DetectResult) : CameraState :=
  if result.error = none then
    { emotion := result.emotion
      confidence := result.confidence
      allEmotions := result.all_emotions.getD [] }
  else st

/-- Scenario observation 1 from the spec (t 1000, happy 0.8). -/
def obsHappy : Obs :=
  { timestamp := 1000, emotion := "happy", confidence := 8/10
    emotions := [("happy", 8/10), ("sad", 1/10), ("neutral", 1/10)] }

/-- Scenario observation 2 from the spec (t 4000, sad 0.6). -/
def obsSad : Obs :=
  { timestamp := 4000, emotion := "sad", confidence := 6/10
    emotions := [("happy", 1/10), ("sad", 6/10), ("neutral", 3/10)] }

/-- Observation with timestamp 5500 for the duration example. -/
def obsLate : Obs :=
  { timestamp := 5500, emotion := "neutral", confidence := 1/2
    emotions := [("neutral", 1/2)] }

/-- Observation whose scores omit the label happy. -/
def obsNoHappy : Obs :=
  { timestamp := 2000, emotion := "sad", confidence := 1/2
    emotions := [("sad", 1/2)] }

/-- A camera state prior to a failing detection call. -/
def camBefore : CameraState :=
  { emotion := "happy", confidence := 8/10, allEmotions := [("happy", 8/10)] }

/-- Summing a list of values each multiplied by a constant equals the
sum multiplied by the constant. -/
theorem sum_map_mul_const (l : List Obs) (f : Obs → ℚ) (c : ℚ) :
    (l.map fun o => f o * c).sum = (l.map f).sum * c := by
  induction l with
  | nil => simp
  | cons a t ih => simp [ih, add_mul]

/-- The descending sort of the emotion entries is pairwise ordered by
descending score. -/
theorem sortDesc_pairwise (s : Scores) : (sortDesc s).Pairwise scoreGe :=
  List.sorted_insertionSort scoreGe s

/-- C1 counterexample: on an empty store the EmotionChart average block
is not computed at all (the source guards it behind a positive length
check), so no zero-filled result is returned, contrary to the claim. -/
theorem avgValue_empty_none :
    avgValue [] "happy" = none ∧ avgValue [] "happy" ≠ some 0 := by
  decide

/-- C1 (amended): for every non-empty store, the per-label chart
average equals 100 times the arithmetic mean of that label (missing
labels as 0); the equality is exact in rational arithmetic, hence
within any tolerance after rescaling by the percent factor. -/
theorem avgValue_eq_hundred_mul_mean (history : List Obs) (h : history ≠ []) (label : String) :
    avgValue history label = some (100 * averageScoresSpec history label) := by
  have hl : history.length ≠ 0 := fun hl => h (List.eq_nil_of_length_eq_zero hl)
  have hp : 0 < history.length := Nat.pos_of_ne_zero hl
  simp only [avgValue, averageScoresSpec, chartVal, if_pos hp, if_neg hl]
  rw [sum_map_mul_const history (fun o => ((o.emotions.lookup label).getD 0)) 100,
    mul_div_right_comm, mul_comm]

unseal Rat.mul Rat.add Rat.inv Rat.sub in
/-- C1 witness: the spec scenario, two observations with happy scores
0.8 and 0.1; the chart average for happy is 45 percent, which is 100
times the mean 0.45. -/
theorem avgValue_scenario :
    avgValue [obsHappy, obsSad] "happy" = some (100 * averageScoresSpec [obsHappy, obsSad] "happy")
    ∧ avgValue [obsHappy, obsSad] "happy" = some 45 :=
  ⟨avgValue_eq_hundred_mul_mean [obsHappy, obsSad] (List.cons_ne_nil _ _) "happy", by decide⟩

/-- C2: appending via handleEmotionHistory only ever concatenates the
new observation at the end, so after any sequence of appends the store
holds exactly the appended observations, in append order, with all
earlier entries preserved unchanged as a prefix. -/
theorem handleEmotionHistory_preserves_order (init obss : List Obs) :
    List.foldl handleEmotionHistory init obss = init ++ obss := by
  induction obss generalizing init with
  | nil => simp
  | cons o rest ih => simp [handleEmotionHistory, ih]

/-- C3 counterexample: on an empty store both export handlers
early-return and produce nothing: no single-header CSV result and no
structured payload with totalRecords 0 is ever produced. -/
theorem exports_empty_claim_fails :
    handleExportCSV [] = none
    ∧ handleExportCSV [] ≠ some [csvHeaders]
    ∧ handleExportJSON [] 0 = none
    ∧ (handleExportJSON [] 0).map Structured.totalRecords ≠ some 0 := by
  decide

/-- C3 (amended): on an empty store both export handlers return early
with no output at all and no error; neither a header-only row result
nor a totalRecords-zero structured payload exists. -/
theorem exports_empty_early_return :
    handleExportCSV [] = none ∧ ∀ t : Int, handleExportJSON [] t = none :=
  ⟨rfl, fun _ => rfl⟩

unseal Rat.mul Rat.add Rat.inv Rat.sub in
/-- C4 counterexample: for the same score mapping as the claim example
but with the sad entry listed first, the stable descending sort keeps
sad before happy, so the tie is broken by entry order, not by the
canonical label order, and topN 2 is not the claimed happy-sad list. -/
theorem topN_tie_follows_entry_order :
    topNLabels [("sad", 9/10), ("happy", 9/10), ("neutral", 1/10)] 2 = ["sad", "happy"]
    ∧ topNLabels [("sad", 9/10), ("happy", 9/10), ("neutral", 1/10)] 2 ≠ ["happy", "sad"] := by
  decide

unseal Rat.mul Rat.add Rat.inv Rat.sub in
/-- C4 (amended): topN returns the n highest-scoring entries sorted
descending by score, with ties broken by the order in which the labels
appear among the score entries (the ECMA-262 sort is stable); when the
entries are listed in canonical order, as in the claim example with
happy 0.9, sad 0.9, neutral 0.1, topN 2 yields happy then sad. -/
theorem topN_sorted_desc :
    (∀ (s : Scores) (n : Nat), (topN s n).Pairwise scoreGe)
    ∧ topNLabels [("happy", 9/10), ("sad", 9/10), ("neutral", 1/10)] 2 = ["happy", "sad"] := by
  constructor
  · intro s n
    exact List.Pairwise.sublist (List.take_sublist n (sortDesc s)) (sortDesc_pairwise s)
  · decide

/-- C5 counterexample: on a store with 0 observations the structured
export produces no payload at all, so no data list exists from which
the (empty) observation list could be reconstructed. -/
theorem exportStructured_empty_no_payload :
    handleExportJSON [] 0 = none
    ∧ (handleExportJSON [] 0).map (fun p => p.data.map reconstructObs) ≠ some [] := by
  decide

/-- C5 (amended): for every non-empty store, reconstructing
Observations from the structured payload data list yields exactly the
original observations (timestamp, dominant emotion, confidence and
scores are serialized verbatim); the empty store produces no payload. -/
theorem exportStructured_roundtrip (history : List Obs) (h : history ≠ []) (t : Int) :
    (handleExportJSON history t).map (fun p => p.data.map reconstructObs) = some history := by
  have hl : history.length ≠ 0 := fun hl => h (List.eq_nil_of_length_eq_zero hl)
  simp only [handleExportJSON, if_neg hl]
  show some ((history.map toDataEntry).map reconstructObs) = some history
  rw [List.map_map]
  exact congrArg some (List.map_id history)

/-- C5 witness: the round trip on a concrete one-observation store. -/
theorem exportStructured_roundtrip_witness :
    (handleExportJSON [obsHappy] 9000).map (fun p => p.data.map reconstructObs)
      = some [obsHappy] :=
  exportStructured_roundtrip [obsHappy] (List.cons_ne_nil _ _) 9000

/-- C6 counterexample: with fewer than 2 observations because the store
is empty, the structured export produces no payload, so its duration is
not 0 as claimed (it does not exist). -/
theorem exportStructured_empty_no_duration :
    handleExportJSON [] 5 = none
    ∧ (handleExportJSON [] 5).map Structured.duration ≠ some 0 := by
  decide

/-- C6 (amended): for every non-empty store, the structured export
duration equals the last observation timestamp minus the first (hence 0
for a single observation); the empty store produces no payload. -/
theorem exportStructured_duration_eq (history : List Obs) (h : history ≠ []) (t : Int) :
    (handleExportJSON history t).map Structured.duration
      = some ((history.getLast h).timestamp - (history.head h).timestamp) := by
  have hl : history.length ≠ 0 := fun hl => h (List.eq_nil_of_length_eq_zero hl)
  simp only [handleExportJSON, if_neg hl]
  rw [show history.head? = some (history.head h) from List.head?_eq_head h,
    show history.getLast? = some (history.getLast h) from List.getLast?_eq_getLast history h]
  rfl

/-- C6 witness: two observations with timestamps 1000 and 5500 give
duration 4500. -/
theorem exportStructured_duration_witness :
    (handleExportJSON [obsHappy, obsLate] 0).map Structured.duration = some 4500 := by
  rw [exportStructured_duration_eq [obsHappy, obsLate] (List.cons_ne_nil _ _) 0]
  decide

/-- C7 counterexample: on an empty store the CSV export early-returns
and produces nothing, not even the header row the claim requires. -/
theorem exportCSV_empty_not_header_only :
    handleExportCSV [] = none ∧ handleExportCSV [] ≠ some [csvHeaders] := by
  decide

/-- C7 (amended): for every non-empty store the CSV export is the
11-column header row followed by exactly one 11-column row per
observation in store order, and each percentage cell of a label present
in the scores is the score times 100 rendered with two fixed decimal
places and a percent suffix (a label absent from the scores renders as
NaN percent, and the empty store produces no rows at all). -/
theorem exportCSV_structure (history : List Obs) (h : history ≠ []) :
    handleExportCSV history = some (csvHeaders :: history.map csvRow)
    ∧ csvHeaders.length = 11
    ∧ (∀ o : Obs, (csvRow o).length = 11)
    ∧ (∀ (s : Scores) (label : String) (v : ℚ),
        s.lookup label = some v → csvEmotionCell s label = toFixed2 (v * 100) ++ "%") := by
  have hl : history.length ≠ 0 := fun hl => h (List.eq_nil_of_length_eq_zero hl)
  refine ⟨?_, rfl, fun o => rfl, fun s label v hv => ?_⟩
  · simp only [handleExportCSV, if_neg hl]
  · simp [csvEmotionCell, hv]

unseal Rat.mul Rat.add Rat.inv Rat.sub in
/-- C7 witness: the spec scenario store; the happy percentage cells of
the two rows render as 80.00 percent and 10.00 percent. -/
theorem exportCSV_structure_witness :
    handleExportCSV [obsHappy, obsSad] = some (csvHeaders :: [obsHappy, obsSad].map csvRow)
    ∧ (csvRow obsHappy).getD 4 "" = "80.00%"
    ∧ (csvRow obsSad).getD 4 "" = "10.00%" :=
  ⟨(exportCSV_structure [obsHappy, obsSad] (List.cons_ne_nil _ _)).1, by decide, by decide⟩

/-- C8 counterexample: for an observation whose scores omit happy, the
CSV happy cell is the non-numeric string NaN percent, not the numeric
zero percentage that defaulting the missing label to 0 would give. -/
theorem exportCSV_missing_label_not_zero :
    (csvRow obsNoHappy).getD 4 "" = "NaN%"
    ∧ (csvRow obsNoHappy).getD 4 "" ≠ "0.00%" := by
  decide

/-- C8 (amended): the chart and average consumers default a missing
label to 0 (well-defined numeric result), but the row export applies no
default: a label missing from the scores renders as the non-numeric
cell NaN percent. -/
theorem missing_label_consumers (o : Obs) (label : String)
    (h : o.emotions.lookup label = none) :
    chartVal o label = 0 ∧ csvEmotionCell o.emotions label = "NaN%" := by
  constructor
  · simp [chartVal, h]
  · simp [csvEmotionCell, h]

/-- C8 witness: the observation without a happy score has chart value 0
and CSV cell NaN percent for happy. -/
theorem missing_label_consumers_witness :
    chartVal obsNoHappy "happy" = 0 ∧ csvEmotionCell obsNoHappy.emotions "happy" = "NaN%" :=
  missing_label_consumers obsNoHappy "happy" (by decide)

unseal Rat.mul Rat.add Rat.inv Rat.sub in
/-- C9 counterexample: after a failed detection call the CameraPanel
state is left exactly as it was (here still happy with confidence 0.8);
the substituted neutral default observation does not reach it. -/
theorem error_result_not_stored :
    applyDetection camBefore (detectEmotionOnError "Network Error") = camBefore
    ∧ camBefore.emotion ≠ "neutral"
    ∧ camBefore.confidence ≠ 0 := by
  decide

/-- C9 (amended): on a failed detection call, detectEmotion does return
a default payload with emotion neutral and confidence 0 carrying the
error message, but the CameraPanel checks the error field and discards
the result, leaving its state (and hence everything downstream)
unchanged: the default observation never reaches the consumer state. -/
theorem detect_error_keeps_state (st : CameraState) (msg : String) :
    detectEmotionOnError msg =
      { emotion := "neutral", confidence := 0, all_emotions := none, error := some msg }
    ∧ applyDetection st (detectEmotionOnError msg) = st := by
  refine ⟨rfl, ?_⟩
  simp [applyDetection, detectEmotionOnError]

/-- C10: handleReset is confirmation-gated: declining leaves the whole
state untouched; confirming empties the history and resets the current
emotion to neutral while leaving every other state field unchanged. -/
theorem handleReset_frame (st : AppState) :
    handleReset false st = st
    ∧ (handleReset true st).emotionHistory = []
    ∧ (handleReset true st).currentEmotion = "neutral"
    ∧ (handleReset true st).isAnalyzing = st.isAnalyzing
    ∧ (handleReset true st).inputMode = st.inputMode
    ∧ (handleReset true st).selectedVideo = st.selectedVideo := by
  simp [handleReset]

end VisionAi
